import Mathlib

/-!
Verification of the JPEG decoder core (src/jpeg/decoder.rs, src/jpeg/transform.rs).

Machine integers are modelled as `Int` (or `Nat` for unsigned bytes) with
explicit two's-complement wrapping (`wrap16`, `wrap32`) where the Rust release
semantics wrap, and explicit saturation (`satI16`, `satI8`) for the SSE2
`packs`/`packus` instructions.  Fallible operations return
`Except DecErr`; Rust panics (out-of-bounds indexing, `Option::unwrap` on
`None`, division by zero) are modelled by the distinguished error
`DecErr.panicked`, which is not an `ImageError` value in the source.
Byte streams are `List Nat`; every byte read masks with `% 256`.
-/

/-- Error outcomes.  `format`, `unsupported`, `dimension` and `ioError` model the
`image::ImageError` variants used by the decoder (`FormatError`,
`UnsupportedError`, `DimensionError`, an I/O error); `panicked` models a Rust
panic, which is not an error value in the source. -/
inductive DecErr where
  | format (msg : String)
  | unsupported (msg : String)
  | dimension
  | ioError
  | panicked
deriving Repr, DecidableEq

/-- Two's-complement wrap to `i16`. -/
def wrap16 (x : Int) : Int := (x + 2 ^ 15) % 2 ^ 16 - 2 ^ 15

/-- Two's-complement wrap to `i32`. -/
def wrap32 (x : Int) : Int := (x + 2 ^ 31) % 2 ^ 32 - 2 ^ 31

/-- Saturation to `i16` (SSE2 `packs` on 32-bit lanes). -/
def satI16 (x : Int) : Int := if x < -32768 then -32768 else if x > 32767 then 32767 else x

/-- Saturation to `i8` (SSE2 `packs` on 16-bit lanes). -/
def satI8 (x : Int) : Int := if x < -128 then -128 else if x > 127 then 127 else x

/-- Modelled from the spec: `math::utils::clamp` (outside this repository's
`src/`); clamps `a` into `[lo, hi]`. -/
def clamp (a lo hi : Int) : Int := if a < lo then lo else if a > hi then hi else a

/-- `fn extend(v: i32, t: u8) -> i32` (decoder.rs, Annex F.2.2.1 figure F.12).
`shift` is `(t as usize).wrapping_sub(1)`; `(-1) << t` on `i32` shifts by
`t % 32` and wraps.  `1 << shift` is evaluated by the source only under
`shift < 31`, where `min shift 31 = shift`; the `min` merely keeps the
unevaluated branch's exponent finite. -/
def extend (v : Int) (t : Nat) : Int :=
  let shift : Nat := (t + (2 ^ 64 - 1)) % 2 ^ 64
  let vt : Int := if shift < 31 then wrap32 (2 ^ min shift 31) else 0
  if v < vt then v + wrap32 ((-1) * 2 ^ (t % 32)) + 1 else v

/-- `UNZIGZAG` (decoder.rs): permutation of dct coefficients. -/
def UNZIGZAG : List Nat :=
  [0,  1,  8, 16,  9,  2,  3, 10,
   17, 24, 32, 25, 18, 11,  4,  5,
   12, 19, 26, 33, 40, 48, 41, 34,
   27, 20, 13,  6,  7, 14, 21, 28,
   35, 42, 49, 56, 57, 50, 43, 36,
   29, 22, 15, 23, 30, 37, 44, 51,
   58, 59, 52, 45, 38, 31, 39, 46,
   53, 60, 61, 54, 47, 55, 62, 63]

/-- Modelled from the spec: `HuffDecoder::decode_symbol` lives in the missing
`jpeg::entropy` module ("pulls bits ... until a leaf is reached; returns the
decoded 8-bit symbol").  The entropy source is abstracted as the stream of
8-bit symbols it produces; an exhausted stream is an I/O error. -/
def decode_symbol : List Nat → Except DecErr (Nat × List Nat)
  | [] => .error .ioError
  | s :: rest => .ok (s % 256, rest)

/-- Modelled from the spec: `HuffDecoder::receive(n)` lives in the missing
`jpeg::entropy` module ("returns the next n bits as an unsigned integer").
The bit source is abstracted as the stream of raw magnitude values it
produces, masked to `n` bits; an exhausted stream is an I/O error. -/
def receive (t : Nat) : List Nat → Except DecErr (Int × List Nat)
  | [] => .error .ioError
  | v :: rest => .ok ((v : Int) % 2 ^ t, rest)

/-- The AC loop of `decode_block` (decoder.rs lines 239-261): `while k < 64`
decode a run/size symbol `rs`; `ssss == 0, rrrr != 15` breaks (end of block),
`ssss == 0, rrrr == 15` skips 16 positions, otherwise advance by the run,
receive the magnitude bits and store the dequantized value at the
un-zig-zagged position.  Indexing `UNZIGZAG[k]`/`qtable[k]` with `k ≥ 64`
is a Rust bounds-check panic, modelled by `DecErr.panicked`.  Each iteration
consumes one symbol, so the recursion is on the symbol stream. -/
def ac_loop (qtable : List Nat) :
    Nat → List Int → List Nat → List Nat → Except DecErr (List Int × List Nat × List Nat)
  | k, tmp, syms, bits =>
    if k < 64 then
      match syms with
      | [] => .error .ioError
      | s :: syms1 =>
        let rs := s % 256
        let ssss := rs % 16
        let rrrr := rs / 16
        if ssss = 0 then
          if rrrr ≠ 15 then .ok (tmp, syms1, bits)
          else ac_loop qtable (k + 16) tmp syms1 bits
        else
          let k1 := k + rrrr
          match bits with
          | [] => .error .ioError
          | b :: bits1 =>
            let t : Int := (b : Int) % 2 ^ ssss
            if k1 < 64 then
              ac_loop qtable (k1 + 1)
                (tmp.set (UNZIGZAG.getD k1 0) (wrap16 (extend t ssss * (qtable.getD k1 0 : Int))))
                syms1 bits1
            else .error .panicked
    else .ok (tmp, syms, bits)

/-- `decode_block` (decoder.rs lines 213-267), coefficient part: decodes the DC
size symbol, receives and sign-extends the difference, adds the predictor and
stores it (as `i16`) at position 0 — with no quantization multiply — then runs
the AC loop.  Returns the 64 natural-order coefficients handed to the IDCT
together with the new DC predictor. -/
def decode_block (pred : Int) (qtable : List Nat) (syms bits : List Nat) :
    Except DecErr (List Int × Int) := do
  let (t, syms1) ← decode_symbol syms
  let (d, bits1) ← if t > 0 then receive t bits else pure (0, bits)
  let diff := extend d t
  let dc := wrap32 (diff + pred)
  let tmp0 := (List.replicate 64 (0 : Int)).set 0 (wrap16 dc)
  let (tmp, _, _) ← ac_loop qtable 1 tmp0 syms1 bits1
  pure (tmp, dc)

/-! ## transform.rs: the fixed-point SIMD inverse DCT

`i16x8` / `i32x4` / `u8x16` lanes are modelled as `List Int` of lengths
8 / 4 / 16; lane arithmetic wraps (`wrap16`/`wrap32`) exactly where the Rust
SIMD operations wrap, and the SSE2 pack instructions saturate. -/

def CONST_BITS : Nat := 13
def PASS1_BITS : Nat := 2

def FIX_0_298631336 : Int := 2446
def FIX_0_390180644 : Int := 3196
def FIX_0_541196100 : Int := 4433
def FIX_0_765366865 : Int := 6270
def FIX_0_899976223 : Int := 7373
def FIX_1_175875602 : Int := 9633
def FIX_1_501321110 : Int := 12299
def FIX_1_847759065 : Int := 15137
def FIX_1_961570560 : Int := 16069
def FIX_2_053119869 : Int := 16819
def FIX_2_562915447 : Int := 20995
def FIX_3_072711026 : Int := 25172

def zero8 : List Int := [0, 0, 0, 0, 0, 0, 0, 0]

/-- `i16x8` lane-wise wrapping addition. -/
def add16 (a b : List Int) : List Int := List.zipWith (fun x y => wrap16 (x + y)) a b

/-- `i16x8` lane-wise wrapping subtraction. -/
def sub16 (a b : List Int) : List Int := List.zipWith (fun x y => wrap16 (x - y)) a b

/-- `i16x8` lane-wise shift left (`<<`), wrapping. -/
def shl16 (a : List Int) (n : Nat) : List Int := a.map (fun x => wrap16 (x * 2 ^ n))

/-- `i32x4` lane-wise wrapping addition. -/
def add32 (a b : List Int) : List Int := List.zipWith (fun x y => wrap32 (x + y)) a b

/-- `i32x4` lane-wise wrapping subtraction. -/
def sub32 (a b : List Int) : List Int := List.zipWith (fun x y => wrap32 (x - y)) a b

/-- `i32x4` lane-wise shift left, wrapping. -/
def shl32 (a : List Int) (n : Nat) : List Int := a.map (fun x => wrap32 (x * 2 ^ n))

/-- `i32x4` lane-wise arithmetic shift right: floor division by `2 ^ n`. -/
def sar32 (a : List Int) (n : Nat) : List Int := a.map (fun x => x / 2 ^ n)

def splat4 (x : Int) : List Int := [x, x, x, x]

def splat8 (x : Int) : List Int := [x, x, x, x, x, x, x, x]

/-- `fn interleave(x: i16x8, y: i16x8) -> (i16x8, i16x8)` (transform.rs). -/
def interleave : List Int → List Int → List Int × List Int
  | [x0, x1, x2, x3, x4, x5, x6, x7], [y0, y1, y2, y3, y4, y5, y6, y7] =>
    ([x0, y0, x1, y1, x2, y2, x3, y3], [x4, y4, x5, y5, x6, y6, x7, y7])
  | _, _ => ([], [])

/-- SSE2 `pmaddwd` (`i16x8::madd`): multiply pairs of 16-bit lanes and add
horizontally into four 32-bit lanes, wrapping on `i32`. -/
def madd : List Int → List Int → List Int
  | [a0, a1, a2, a3, a4, a5, a6, a7], [b0, b1, b2, b3, b4, b5, b6, b7] =>
    [wrap32 (a0 * b0 + a1 * b1), wrap32 (a2 * b2 + a3 * b3),
     wrap32 (a4 * b4 + a5 * b5), wrap32 (a6 * b6 + a7 * b7)]
  | _, _ => []

/-- `fn as_i32(x: i16x8) -> (i32x4, i32x4)` (transform.rs): sign-extend the
low and high halves into 32-bit lanes. -/
def as_i32 : List Int → List Int × List Int
  | [a0, a1, a2, a3, a4, a5, a6, a7] => ([a0, a1, a2, a3], [a4, a5, a6, a7])
  | _ => ([], [])

/-- SSE2 `packs` of two `i32x4` into one `i16x8`, saturating. -/
def packs32 (a b : List Int) : List Int := (a ++ b).map satI16

/-- SSE2 `packs` of two `i16x8` into one `i8x16`, saturating. -/
def packs16 (a b : List Int) : List Int := (a ++ b).map satI8

/-- `fn cf(x: i32, y: i32, z: i32) -> (i16x8, i16x8)` inside `idct`
(transform.rs): builds the interleaved multiplier constants (the values fit
in `i16`, so the `as i16` casts are exact). -/
def cf (x y z : Int) : List Int × List Int :=
  ([x + y, x, x + y, x, x + y, x, x + y, x], [x, x + z, x, x + z, x, x + z, x, x + z])

/-- `pub fn transpose(matrix: &[i16x8; 8])` (transform.rs), returned as a list
of the 8 result vectors. -/
def transpose : List (List Int) → List (List Int)
  | [m0, m1, m2, m3, m4, m5, m6, m7] =>
    let p := interleave m0 m4
    let q := interleave m1 m5
    let r := interleave m2 m6
    let s := interleave m3 m7
    let p1 := interleave p.1 r.1
    let q1 := interleave p.2 r.2
    let r1 := interleave q.1 s.1
    let s1 := interleave q.2 s.2
    let p2 := interleave p1.1 r1.1
    let q2 := interleave p1.2 r1.2
    let r2 := interleave q1.1 s1.1
    let s2 := interleave q1.2 s1.2
    [p2.1, p2.2, q2.1, q2.2, r2.1, r2.2, s2.1, s2.2]
  | _ => []

/-- `interleave_8` inside `transpose_bytes` (transform.rs), on `u8x16`. -/
def interleave_8 : List Int → List Int → List Int × List Int
  | [x0, x1, x2, x3, x4, x5, x6, x7, x8, x9, x10, x11, x12, x13, x14, x15],
    [y0, y1, y2, y3, y4, y5, y6, y7, y8, y9, y10, y11, y12, y13, y14, y15] =>
    ([x0, y0, x1, y1, x2, y2, x3, y3, x4, y4, x5, y5, x6, y6, x7, y7],
     [x8, y8, x9, y9, x10, y10, x11, y11, x12, y12, x13, y13, x14, y14, x15, y15])
  | _, _ => ([], [])

/-- `fn transpose_bytes(x, y, z, w: u8x16)` (transform.rs). -/
def transpose_bytes (x y z w : List Int) : List Int × List Int × List Int × List Int :=
  let p := interleave_8 x z
  let q := interleave_8 y w
  let p1 := interleave_8 p.1 q.1
  let q1 := interleave_8 p.2 q.2
  let p2 := interleave_8 p1.1 q1.1
  let q2 := interleave_8 p1.2 q1.2
  (p2.1, p2.2, q2.1, q2.2)

/-- `fn combine(xl, xh, yl, yh: i32x4) -> (i16x8, i16x8)` inside `idct`
(transform.rs): `SHIFT = CONST_BITS - PASS1_BITS = 11`. -/
def combine (xl xh yl yh : List Int) : List Int × List Int :=
  (packs32 (sar32 (add32 xl yl) 11) (sar32 (add32 xh yh) 11),
   packs32 (sar32 (sub32 xl yl) 11) (sar32 (sub32 xh yh) 11))

/-- `fn sp(a, b: i32x4) -> i16x8` inside `idct` (transform.rs):
`SHIFT = CONST_BITS + PASS1_BITS + 3 = 18`. -/
def sp (a b : List Int) : List Int := packs32 (sar32 a 18) (sar32 b 18)

/-- `fn ps(a, b: i16x8) -> u8x16` inside `idct` (transform.rs): saturating pack
to `i8`, reinterpret as `u8` and add 128 with `u8` wrap-around. -/
def ps (a b : List Int) : List Int := (packs16 a b).map (fun x => (x % 256 + 128) % 256)

/-- The general (slow-path) part of `idct` (transform.rs lines 324-457): the
first pass of the two-pass fixed-point IDCT, producing `tmp`. -/
def idct_pass1 (coeffs : List (List Int)) : List (List Int) :=
  match coeffs with
  | [c0, c1, c2, c3, c4, c5, c6, c7] =>
  let f1 := cf FIX_0_541196100 FIX_0_765366865 (-FIX_1_847759065)
  let f2 := cf FIX_1_175875602 (-FIX_1_961570560) (-FIX_0_390180644)
  let f3 := cf (-FIX_0_899976223) FIX_0_298631336 FIX_1_501321110
  let f4 := cf (-FIX_2_562915447) FIX_2_053119869 FIX_3_072711026
  let z2z3 := interleave c2 c6
  let t2l := madd z2z3.1 f1.1
  let t2h := madd z2z3.2 f1.1
  let t3l := madd z2z3.1 f1.2
  let t3h := madd z2z3.2 f1.2
  let z2lh := as_i32 c0
  let z2l := add32 (shl32 z2lh.1 CONST_BITS) (splat4 (2 ^ (CONST_BITS - PASS1_BITS - 1)))
  let z2h := add32 (shl32 z2lh.2 CONST_BITS) (splat4 (2 ^ (CONST_BITS - PASS1_BITS - 1)))
  let z3lh := as_i32 c4
  let z3l := shl32 z3lh.1 CONST_BITS
  let z3h := shl32 z3lh.2 CONST_BITS
  let t0l := add32 z2l z3l
  let t0h := add32 z2h z3h
  let t1l := sub32 z2l z3l
  let t1h := sub32 z2h z3h
  let t10l := add32 t0l t2l
  let t10h := add32 t0h t2h
  let t13l := sub32 t0l t2l
  let t13h := sub32 t0h t2h
  let t11l := add32 t1l t3l
  let t11h := add32 t1h t3h
  let t12l := sub32 t1l t3l
  let t12h := sub32 t1h t3h
  let u0 := c7
  let u1 := c5
  let u2 := c3
  let u3 := c1
  let w2w3 := interleave (add16 u0 u2) (add16 u1 u3)
  let z2lo := madd w2w3.1 f2.1
  let z2ho := madd w2w3.2 f2.1
  let z3lo := madd w2w3.1 f2.2
  let z3ho := madd w2w3.2 f2.2
  let u0u3 := interleave u0 u3
  let v0l := add32 (madd u0u3.1 f3.1) z2lo
  let v0h := add32 (madd u0u3.2 f3.1) z2ho
  let v3l := add32 (madd u0u3.1 f3.2) z3lo
  let v3h := add32 (madd u0u3.2 f3.2) z3ho
  let u1u2 := interleave u1 u2
  let v1l := add32 (madd u1u2.1 f4.1) z3lo
  let v1h := add32 (madd u1u2.2 f4.1) z3ho
  let v2l := add32 (madd u1u2.1 f4.2) z2lo
  let v2h := add32 (madd u1u2.2 f4.2) z2ho
  let r07 := combine t10l t10h v3l v3h
  let r16 := combine t11l t11h v2l v2h
  let r25 := combine t12l t12h v1l v1h
  let r34 := combine t13l t13h v0l v0h
  [r07.1, r16.1, r25.1, r34.1, r34.2, r25.2, r16.2, r07.2]
  | _ => []

/-- The second pass of `idct` (transform.rs lines 461-585): transpose, row
transform, descale, level-shift by +128 and store the 64 output samples. -/
def idct_pass2 (tmp : List (List Int)) : List Int :=
  let f1 := cf FIX_0_541196100 FIX_0_765366865 (-FIX_1_847759065)
  let f2 := cf FIX_1_175875602 (-FIX_1_961570560) (-FIX_0_390180644)
  let f3 := cf (-FIX_0_899976223) FIX_0_298631336 FIX_1_501321110
  let f4 := cf (-FIX_2_562915447) FIX_2_053119869 FIX_3_072711026
  match transpose tmp with
  | [y0, y1, y2, y3, y4, y5, y6, y7] =>
  let z2z3 := interleave y2 y6
  let t2l := madd z2z3.1 f1.1
  let t2h := madd z2z3.2 f1.1
  let t3l := madd z2z3.1 f1.2
  let t3h := madd z2z3.2 f1.2
  let z2 := add16 y0 (splat8 (2 ^ (PASS1_BITS + 2)))
  let z3 := y4
  let t0lh := as_i32 (add16 z2 z3)
  let t0l := shl32 t0lh.1 CONST_BITS
  let t0h := shl32 t0lh.2 CONST_BITS
  let t1lh := as_i32 (sub16 z2 z3)
  let t1l := shl32 t1lh.1 CONST_BITS
  let t1h := shl32 t1lh.2 CONST_BITS
  let t10l := add32 t0l t2l
  let t10h := add32 t0h t2h
  let t13l := sub32 t0l t2l
  let t13h := sub32 t0h t2h
  let t11l := add32 t1l t3l
  let t11h := add32 t1h t3h
  let t12l := sub32 t1l t3l
  let t12h := sub32 t1h t3h
  let u0 := y7
  let u1 := y5
  let u2 := y3
  let u3 := y1
  let w2w3 := interleave (add16 u0 u2) (add16 u1 u3)
  let z2lo := madd w2w3.1 f2.1
  let z2ho := madd w2w3.2 f2.1
  let z3lo := madd w2w3.1 f2.2
  let z3ho := madd w2w3.2 f2.2
  let u0u3 := interleave u0 u3
  let v0l := add32 (madd u0u3.1 f3.1) z2lo
  let v0h := add32 (madd u0u3.2 f3.1) z2ho
  let v3l := add32 (madd u0u3.1 f3.2) z3lo
  let v3h := add32 (madd u0u3.2 f3.2) z3ho
  let u1u2 := interleave u1 u2
  let v1l := add32 (madd u1u2.1 f4.1) z3lo
  let v1h := add32 (madd u1u2.2 f4.1) z3ho
  let v2l := add32 (madd u1u2.1 f4.2) z2lo
  let v2h := add32 (madd u1u2.2 f4.2) z2ho
  let a0 := sp (add32 t10l v3l) (add32 t10h v3h)
  let a7 := sp (sub32 t10l v3l) (sub32 t10h v3h)
  let a1 := sp (add32 t11l v2l) (add32 t11h v2h)
  let a6 := sp (sub32 t11l v2l) (sub32 t11h v2h)
  let a2 := sp (add32 t12l v1l) (add32 t12h v1h)
  let a5 := sp (sub32 t12l v1l) (sub32 t12h v1h)
  let a3 := sp (add32 t13l v0l) (add32 t13h v0h)
  let a4 := sp (sub32 t13l v0l) (sub32 t13h v0h)
  let x := ps a0 a1
  let y := ps a2 a3
  let z := ps a4 a5
  let w := ps a6 a7
  let abcd := transpose_bytes x y z w
  abcd.1 ++ abcd.2.1 ++ abcd.2.2.1 ++ abcd.2.2.2
  | _ => []

/-- `pub fn idct(coeffs: &[i16x8; 8], samples: &mut [u8])` (transform.rs).
The source tests `(c0 | c1 | ... | c7).eq(zero).all()`; a bitwise OR of
two's-complement lanes is zero exactly when every lane of every vector is
zero, which is how the test is rendered here. -/
def idct (coeffs : List (List Int)) : List Int :=
  match coeffs with
  | [c0, c1, c2, c3, c4, c5, c6, c7] =>
    if c0 = zero8 ∧ c1 = zero8 ∧ c2 = zero8 ∧ c3 = zero8 ∧
       c4 = zero8 ∧ c5 = zero8 ∧ c6 = zero8 ∧ c7 = zero8 then
      idct_pass2 (List.replicate 8 (shl16 c0 PASS1_BITS))
    else
      idct_pass2 (idct_pass1 [c0, c1, c2, c3, c4, c5, c6, c7])
  | _ => idct_pass2 (idct_pass1 coeffs)

/-- `idct` with the all-zero fast path removed: the general (slow-path)
computation applied unconditionally. -/
def idct_general (coeffs : List (List Int)) : List Int :=
  idct_pass2 (idct_pass1 coeffs)

/-- The 8 coefficient rows of an 8×8 block whose DC coefficient is `d` and
whose 63 AC coefficients are all zero. -/
def dc_only_coeffs (d : Int) : List (List Int) :=
  [[d, 0, 0, 0, 0, 0, 0, 0], zero8, zero8, zero8, zero8, zero8, zero8, zero8]

/-- The scaling the fixed-point pipeline applies to the DC coefficient of an
all-zero-AC block: pass 1 yields `satI16 (4 * d)` (descale by `2^11` of
`d << 13` plus the rounding constant, saturating pack), pass 2 adds the
rounding constant 16 (wrapping `i16` add) and descales by `2^5`.  On the
non-saturating range this is exactly `(d + 4) / 8` rounded toward minus
infinity. -/
def d_scaled (d : Int) : Int := wrap16 (satI16 (4 * d) + 16) / 32

/-! ## decoder.rs: upsampling -/

/-- `fn upsample_mcu_scalar(out, xoffset, width, bpp, mcu, h, v)`
(decoder.rs lines 622-660).  `ycbcr_to_rgb_scalar` performs `f32` arithmetic
and is abstracted by the parameter `conv`; this embedding settles which
luma/chroma samples each output pixel is computed from, which is independent
of `conv`.  Writes are modelled with `List.set`; for the buffer sizes
considered here every write is in bounds. -/
def upsample_mcu_scalar (conv : Nat → Nat → Nat → Nat × Nat × Nat)
    (out : List Nat) (xoffset width bpp : Nat) (mcu : List Nat) (h v : Nat) : List Nat :=
  if mcu.length = 64 then
    (List.range 8).foldl (fun acc y =>
      (List.range 8).foldl (fun acc x =>
        acc.set (xoffset + x + y * width) (mcu.getD (x + y * 8) 0)) acc) out
  else
    let yblocks := mcu.take (h * v * 64)
    let cb := (mcu.drop (h * v * 64)).take 64
    let cr := mcu.drop (h * v * 64 + 64)
    (List.range v).foldl (fun acc vb =>
      let y0 := vb * 8
      (List.range h).foldl (fun acc hb =>
        let k := vb * h + hb
        let x0 := xoffset + hb * 8 * bpp
        (List.range 8).foldl (fun acc y =>
          (List.range 8).foldl (fun acc x =>
            let rgb := conv (yblocks.getD (k * 64 + x + y * 8) 0)
                            (cb.getD (x + y * 8) 0) (cr.getD (x + y * 8) 0)
            let offset := (y0 + y) * (width * bpp) + x0 + x * bpp
            ((acc.set offset rgb.1).set (offset + 1) rgb.2.1).set (offset + 2) rgb.2.2)
            acc) acc) acc) out

/-! ## decoder.rs: decoder state, segment parser, restart handling -/

/-- `struct Component` (decoder.rs). -/
structure Component where
  id : Nat
  h : Nat
  v : Nat
  tq : Nat
  dc_table : Nat
  ac_table : Nat
  dc_pred : Int
deriving Repr, DecidableEq

/-- A Huffman table is built by `derive_tables` in the missing `jpeg::entropy`
module; only the fact that it is a pure value derived from the DHT payload
matters here, so the payload itself is stored. -/
structure HuffTable where
  bits : List Nat
  huffval : List Nat
deriving Repr, DecidableEq

/-- Modelled from the spec: `derive_tables` (missing `jpeg::entropy` module)
"converts a JPEG-specified (code-length counts, symbol values) pair into a
fast symbol-lookup table"; modelled as retaining its input. -/
def derive_tables (bits huffval : List Nat) : HuffTable := ⟨bits, huffval⟩

/-- The mutable scalar state of `HuffDecoder` reset by `JPEGDecoder::reset`:
bit accumulator, valid-bit count, end-of-data flag, cached marker byte. -/
structure HuffState where
  bits : Nat
  num_bits : Nat
  end_ : Bool
  marker : Nat
deriving Repr, DecidableEq

/-- `enum JPEGState` (decoder.rs). -/
inductive JPEGState where
  | Start
  | HaveSOI
  | HaveFirstFrame
  | HaveFirstScan
  | End
deriving Repr, DecidableEq

/-- Position of a state along `Start → HaveSOI → HaveFirstFrame →
HaveFirstScan (→ End)`. -/
def stateRank : JPEGState → Nat
  | .Start => 0
  | .HaveSOI => 1
  | .HaveFirstFrame => 2
  | .HaveFirstScan => 3
  | .End => 4

/-- The fields of `struct JPEGDecoder` touched by the embedded methods (the
reader `r` is the explicit byte list threaded through each function; the
`mcu`/`mcu_row` sample buffers are represented by their lengths, and the
row-iteration counters are omitted because no embedded method reads them). -/
structure JPEGDecoder where
  qtables : List Nat
  dctables : List HuffTable
  actables : List HuffTable
  h : HuffState
  height : Nat
  width : Nat
  num_components : Nat
  scan_components : List Nat
  components : List (Nat × Component)
  mcu_len : Nat
  mcu_row_len : Nat
  hmax : Nat
  vmax : Nat
  interval : Nat
  mcucount : Nat
  expected_rst : Nat
  padded_width : Nat
  state : JPEGState
deriving Repr, DecidableEq

/-- Marker constants (decoder.rs). -/
def SOF0 : Nat := 0xC0
def SOF2 : Nat := 0xC2
def DHT : Nat := 0xC4
def RST0 : Nat := 0xD0
def RST7 : Nat := 0xD7
def SOI : Nat := 0xD8
def EOI : Nat := 0xD9
def SOS : Nat := 0xDA
def DQT : Nat := 0xDB
def DNL : Nat := 0xDC
def DRI : Nat := 0xDD
def APP0 : Nat := 0xE0
def APPF : Nat := 0xEF
def COM : Nat := 0xFE
def TEM : Nat := 0x01

/-- `JPEGDecoder::new` (decoder.rs): the initial decoder state.  The default
`HuffTable` of the missing entropy module is modelled as empty. -/
def JPEGDecoder.new : JPEGDecoder where
  qtables := List.replicate (64 * 4) 0
  dctables := [⟨[], []⟩, ⟨[], []⟩]
  actables := [⟨[], []⟩, ⟨[], []⟩]
  h := ⟨0, 0, false, 0⟩
  height := 0
  width := 0
  num_components := 0
  scan_components := []
  components := []
  mcu_len := 0
  mcu_row_len := 0
  hmax := 0
  vmax := 0
  interval := 0
  mcucount := 0
  expected_rst := RST0
  padded_width := 0
  state := .Start

/-- `read_u8`: pop one byte (I/O error at end of stream). -/
def readU8 : List Nat → Except DecErr (Nat × List Nat)
  | [] => .error .ioError
  | b :: rest => .ok (b % 256, rest)

/-- `read_u16::<BigEndian>`: two bytes, big-endian. -/
def readU16 (bytes : List Nat) : Except DecErr (Nat × List Nat) :=
  match bytes with
  | [] => .error .ioError
  | [_] => .error .ioError
  | b1 :: b2 :: rest => .ok ((b1 % 256) * 256 + b2 % 256, rest)

/-- `u16` wrapping subtraction (`a - b` on `u16` in release mode). -/
def usub16 (a b : Nat) : Nat := (a + 2 ^ 16 - b % 2 ^ 16) % 2 ^ 16

/-- `HashMap::insert`: replace the entry with this key, or add it. -/
def insertComp (comps : List (Nat × Component)) (id : Nat) (c : Component) :
    List (Nat × Component) :=
  if comps.any (fun p => p.1 = id) then
    comps.map (fun p => if p.1 = id then (id, c) else p)
  else comps ++ [(id, c)]

/-- In-place update through `HashMap::get_mut` of an existing entry. -/
def update_comp (comps : List (Nat × Component)) (id : Nat) (c : Component) :
    List (Nat × Component) :=
  comps.map (fun p => if p.1 = id then (p.1, c) else p)

/-- The `while table_length > 0` loop of `read_quantization_tables`
(decoder.rs lines 424-440).  `pq ≠ 0` or `tq > 3` is a format error; the 64
entries are read with `read_u8`, which fails with an I/O error at end of
stream; `table_length` is an `i32`. -/
def dqt_loop (tlen : Int) (qt : List Nat) (bytes : List Nat) :
    Except DecErr (List Nat × List Nat) :=
  if tlen > 0 then
    match bytes with
    | [] => .error .ioError
    | b :: rest =>
      let pqtq := b % 256
      let pq := pqtq / 16
      let tq := pqtq % 16
      if pq ≠ 0 ∨ tq > 3 then .error (.format "Quantization table malformed.")
      else if rest.length < 64 then .error .ioError
      else dqt_loop (tlen - 65)
        (qt.take (64 * tq) ++ (rest.take 64).map (fun x => x % 256) ++ qt.drop (64 * tq + 64))
        (rest.drop 64)
  else .ok (qt, bytes)
termination_by bytes.length
decreasing_by simp; omega

/-- `read_quantization_tables` (decoder.rs lines 420-443). -/
def read_quantization_tables (st : JPEGDecoder) (bytes : List Nat) :
    Except DecErr (JPEGDecoder × List Nat) :=
  match readU16 bytes with
  | .error e => .error e
  | .ok (len, r1) =>
    match dqt_loop ((len : Int) - 2) st.qtables r1 with
    | .error e => .error e
    | .ok (qt, rest) => .ok ({st with qtables := qt}, rest)

/-- The `while table_length > 0` loop of `read_huffman_tables` (decoder.rs
lines 449-475).  `take(16)`/`take(mt)` followed by `read_to_end` consume at
most that many bytes and do not fail at end of stream; the code-count sum
`mt` is a wrapping `u8` fold; `table_length` is a wrapping `u16`; indexing
`dctables[th]`/`actables[th]` with `th > 1` is a bounds-check panic. -/
def dht_loop (tlen : Nat) (dct act : List HuffTable) (bytes : List Nat) :
    Except DecErr ((List HuffTable × List HuffTable) × List Nat) :=
  if tlen > 0 then
    match bytes with
    | [] => .error .ioError
    | b :: rest =>
      let tcth := b % 256
      let tc := tcth / 16
      let th := tcth % 16
      if tc ≠ 0 ∧ tc ≠ 1 then
        .error (.unsupported ("Huffman table class " ++ toString tc ++ " is not supported"))
      else
        let bits := (rest.take 16).map (fun x => x % 256)
        let len := bits.length
        let mt := bits.foldl (fun a b => (a + b) % 256) 0
        let rest2 := rest.drop 16
        let huffval := (rest2.take mt).map (fun x => x % 256)
        let rest3 := rest2.drop mt
        if th > 1 then .error .panicked
        else if tc = 0 then
          dht_loop (usub16 tlen (1 + len + mt)) (dct.set th (derive_tables bits huffval)) act rest3
        else
          dht_loop (usub16 tlen (1 + len + mt)) dct (act.set th (derive_tables bits huffval)) rest3
  else .ok ((dct, act), bytes)
termination_by bytes.length
decreasing_by all_goals (simp only [List.length_drop, List.length_cons]; omega)

/-- `read_huffman_tables` (decoder.rs lines 445-478). -/
def read_huffman_tables (st : JPEGDecoder) (bytes : List Nat) :
    Except DecErr (JPEGDecoder × List Nat) :=
  match readU16 bytes with
  | .error e => .error e
  | .ok (len, r1) =>
    match dht_loop (usub16 len 2) st.dctables st.actables r1 with
    | .error e => .error e
    | .ok (ta, rest) => .ok ({st with dctables := ta.1, actables := ta.2}, rest)

/-- The `for _ in (0..n)` loop of `read_frame_components` (decoder.rs lines
342-359): read each component's id, packed sampling factors and quantization
selector; `blocks_per_mcu` accumulates with wrapping `u8` arithmetic. -/
def rfc_loop : Nat → List (Nat × Component) → Nat → List Nat →
    Except DecErr ((List (Nat × Component) × Nat) × List Nat)
  | 0, comps, bpm, bytes => .ok ((comps, bpm), bytes)
  | n + 1, comps, bpm, bytes =>
    match bytes with
    | [] => .error .ioError
    | [_] => .error .ioError
    | [_, _] => .error .ioError
    | b1 :: b2 :: b3 :: r3 =>
      let id := b1 % 256
      let hv := b2 % 256
      let tq := b3 % 256
      let c : Component :=
        { id := id, h := hv / 16, v := hv % 16, tq := tq, dc_table := 0, ac_table := 0,
          dc_pred := 0 }
      rfc_loop n (insertComp comps id c) ((bpm + (hv / 16) * (hv % 16)) % 256) r3

/-- `read_frame_components` (decoder.rs lines 339-388).  The MCU-per-row count
is computed in the source as `(width as f32 / (8*hmax) as f32).ceil()`; on the
`u16` domain the `f32` division error is far below the distance of the
quotient from any integer it is not equal to, so it equals the exact ceiling
division; for `hmax = 0` the source divides by `0.0` (giving `inf`, with an
unspecified cast) and is modelled as 0 — nothing proved here depends on it. -/
def read_frame_components (st : JPEGDecoder) (n : Nat) (bytes : List Nat) :
    Except DecErr (JPEGDecoder × List Nat) :=
  match rfc_loop n st.components 0 bytes with
  | .error e => .error e
  | .ok ((comps0, bpm0), rest) =>
  let hm := comps0.foldl (fun (p : Nat × Nat) q => (max p.1 q.2.h, max p.2 q.2.v)) (0, 0)
  let comps := if n = 1 then comps0.map (fun q => (q.1, { q.2 with h := 1, v := 1 })) else comps0
  let bpm := if n = 1 then 1 else bpm0
  let hmax := if n = 1 then 1 else hm.1
  let vmax := if n = 1 then 1 else hm.2
  let mcuLen := bpm * 64
  let mcusPerRow := if hmax = 0 then 0 else (st.width + 8 * hmax - 1) / (8 * hmax)
  .ok ({st with components := comps, hmax := hmax, vmax := vmax,
                mcu_len := mcuLen, mcu_row_len := hmax * vmax * mcuLen * mcusPerRow }, rest)

/-- `read_frame_header` (decoder.rs lines 307-337): reject precision ≠ 8
(`UnsupportedError`), zero height/width (`DimensionError`), component counts
other than 1 or 3 (`UnsupportedError`); record height, width, component
count and padded width, then read the per-component records. -/
def read_frame_header (st : JPEGDecoder) (bytes : List Nat) :
    Except DecErr (JPEGDecoder × List Nat) :=
  match readU16 bytes with
  | .error e => .error e
  | .ok (_frame_length, r1) =>
  match readU8 r1 with
  | .error e => .error e
  | .ok (precision, r2) =>
  if precision ≠ 8 then
    .error (.unsupported ("A sample precision of " ++ toString precision ++ " is not supported"))
  else
  match readU16 r2 with
  | .error e => .error e
  | .ok (height, r3) =>
  match readU16 r3 with
  | .error e => .error e
  | .ok (width, r4) =>
  match readU8 r4 with
  | .error e => .error e
  | .ok (n, r5) =>
  if height = 0 ∨ width = 0 then .error .dimension
  else if n ≠ 1 ∧ n ≠ 3 then
    .error (.unsupported ("Frames with " ++ toString n ++ " components are not supported"))
  else
    read_frame_components
      {st with height := height, width := width, num_components := n,
               padded_width := 8 * ((width + 7) / 8)} n r5

/-- The component loop of `read_scan_header` (decoder.rs lines 397-407): a
scan component id absent from the frame header's component map makes the
`unwrap` on `HashMap::get_mut` panic. -/
def ssh_loop : Nat → List (Nat × Component) → List Nat → List Nat →
    Except DecErr ((List (Nat × Component) × List Nat) × List Nat)
  | 0, comps, sc, bytes => .ok ((comps, sc), bytes)
  | n + 1, comps, sc, bytes =>
    match bytes with
    | [] => .error .ioError
    | [_] => .error .ioError
    | b1 :: b2 :: r2 =>
      let id := b1 % 256
      let tables := b2 % 256
      match List.lookup id comps with
      | none => .error .panicked
      | some c =>
        ssh_loop n
          (update_comp comps id { c with dc_table := tables / 16, ac_table := tables % 16 })
          (sc ++ [id]) r2

/-- `read_scan_header` (decoder.rs lines 390-418). -/
def read_scan_header (st : JPEGDecoder) (bytes : List Nat) :
    Except DecErr (JPEGDecoder × List Nat) :=
  match readU16 bytes with
  | .error e => .error e
  | .ok (_scan_length, r1) =>
  match readU8 r1 with
  | .error e => .error e
  | .ok (n, r2) =>
  match ssh_loop n st.components [] r2 with
  | .error e => .error e
  | .ok ((comps, sc), r3) =>
  match readU8 r3 with
  | .error e => .error e
  | .ok (_spectral_end, r4) =>
  match readU8 r4 with
  | .error e => .error e
  | .ok (_spectral_start, r5) =>
  match readU8 r5 with
  | .error e => .error e
  | .ok (_approx, r6) => .ok ({st with components := comps, scan_components := sc}, r6)

/-- `read_restart_interval` (decoder.rs lines 481-486). -/
def read_restart_interval (st : JPEGDecoder) (bytes : List Nat) :
    Except DecErr (JPEGDecoder × List Nat) :=
  match readU16 bytes with
  | .error e => .error e
  | .ok (_length, r1) =>
  match readU16 r1 with
  | .error e => .error e
  | .ok (iv, r2) => .ok ({st with interval := iv}, r2)

/-- The `APP0 ... APPF | COM` arm of `read_metadata` (decoder.rs lines
292-296): skip `length - 2` bytes (`u16` wrapping subtraction;
`take(..).read_to_end` consumes at most the remaining bytes). -/
def skip_segment (st : JPEGDecoder) (bytes : List Nat) :
    Except DecErr (JPEGDecoder × List Nat) :=
  match readU16 bytes with
  | .error e => .error e
  | .ok (len, r1) => .ok (st, r1.drop (usub16 len 2))

/-- `JPEGDecoder::reset` (decoder.rs lines 540-549): clear the entropy
decoder's scalar state and zero every component's DC predictor. -/
def reset (st : JPEGDecoder) : JPEGDecoder :=
  {st with h := ⟨0, 0, false, 0⟩,
           components := st.components.map (fun p => (p.1, { p.2 with dc_pred := 0 }))}

/-- The marker-scan loop of `find_restart_marker` (decoder.rs lines 523-535):
skip bytes until `0xFF` followed by `RST0..RST7` (found) or `EOI` (format
error); any other second byte continues the scan. -/
def frm_loop : List Nat → Except DecErr (Nat × List Nat)
  | [] => .error .ioError
  | b :: rest =>
    if b % 256 = 0xFF then
      match rest with
      | [] => .error .ioError
      | m :: rest2 =>
        let m := m % 256
        if RST0 ≤ m ∧ m ≤ RST7 then .ok (m, rest2)
        else if m = EOI then .error (.format "Restart marker not found.")
        else frm_loop rest2
    else frm_loop rest

/-- `find_restart_marker` (decoder.rs lines 515-538): a marker cached by the
entropy decoder is consumed first; otherwise the stream is scanned. -/
def find_restart_marker (h : HuffState) (bytes : List Nat) :
    Except DecErr (Nat × HuffState × List Nat) :=
  if h.marker ≠ 0 then .ok (h.marker, {h with marker := 0}, bytes)
  else
    match frm_loop bytes with
    | .error e => .error e
    | .ok (m, rest) => .ok (m, h, rest)

/-- `read_restart` (decoder.rs lines 488-513).  `w`/`h` use `u16` arithmetic
(`width + 7` wraps; the divisor `hmax * 8` wraps on `u8`); a zero divisor is
a Rust division panic.  When the restart condition holds, a matching marker
resets the decoder and advances the expected index cyclically; a mismatch is
a format error naming the marker. -/
def read_restart (st : JPEGDecoder) (bytes : List Nat) :
    Except DecErr (JPEGDecoder × List Nat) :=
  if (st.hmax * 8) % 256 = 0 ∨ (st.vmax * 8) % 256 = 0 then .error .panicked
  else
    let w := ((st.width + 7) % 2 ^ 16) / ((st.hmax * 8) % 256)
    let h := ((st.height + 7) % 2 ^ 16) / ((st.vmax * 8) % 256)
    if st.interval ≠ 0 ∧ st.mcucount % st.interval = 0 ∧ st.mcucount < w * h then
      match find_restart_marker st.h bytes with
      | .error e => .error e
      | .ok (rst, h2, rest) =>
        if rst = st.expected_rst then
          let st1 := reset {st with h := h2}
          let e1 := st1.expected_rst + 1
          .ok ({st1 with expected_rst := if e1 > RST7 then RST0 else e1}, rest)
        else
          .error (.format ("Unexpected restart maker " ++ toString rst ++ " found"))
    else .ok (st, bytes)

/-- One iteration of the marker-processing loop of `read_metadata`
(decoder.rs lines 270-302): read one byte; a non-`0xFF` byte is skipped;
otherwise dispatch on the marker byte exactly as the source `match` does. -/
def read_metadata_step (st : JPEGDecoder) (bytes : List Nat) :
    Except DecErr (JPEGDecoder × List Nat) :=
  match bytes with
  | [] => .error .ioError
  | b :: rest =>
    if b % 256 ≠ 0xFF then .ok (st, rest)
    else
      match rest with
      | [] => .error .ioError
      | mb :: rest2 =>
        let marker := mb % 256
        if marker = SOI then .ok ({st with state := .HaveSOI}, rest2)
        else if marker = DHT then read_huffman_tables st rest2
        else if marker = DQT then read_quantization_tables st rest2
        else if marker = SOF0 then
          (read_frame_header st rest2).map (fun p => ({p.1 with state := .HaveFirstFrame}, p.2))
        else if marker = SOS then
          (read_scan_header st rest2).map (fun p => ({p.1 with state := .HaveFirstScan}, p.2))
        else if marker = DRI then read_restart_interval st rest2
        else if (APP0 ≤ marker ∧ marker ≤ APPF) ∨ marker = COM then skip_segment st rest2
        else if marker = TEM then .ok (st, rest2)
        else if marker = SOF2 then .error (.unsupported "Marker SOF2 ist not supported.")
        else if marker = DNL then .error (.unsupported "Marker DNL ist not supported.")
        else .error (.format ("Unkown marker " ++ toString marker ++ " encountered."))

/-- `read_metadata`'s `while self.state != JPEGState::HaveFirstScan` loop,
with explicit fuel (every iteration consumes at least one byte, so
`bytes.length + 1` fuel is never exhausted before the stream is). -/
def read_metadata_aux : Nat → JPEGDecoder → List Nat →
    Except DecErr (JPEGDecoder × List Nat)
  | 0, _, _ => .error .ioError
  | fuel + 1, st, bytes =>
    if st.state = JPEGState.HaveFirstScan then .ok (st, bytes)
    else
      match read_metadata_step st bytes with
      | .error e => .error e
      | .ok (st1, rest) => read_metadata_aux fuel st1 rest

/-- `read_metadata` (decoder.rs lines 269-305). -/
def read_metadata (st : JPEGDecoder) (bytes : List Nat) :
    Except DecErr (JPEGDecoder × List Nat) :=
  read_metadata_aux (bytes.length + 1) st bytes

/-- The sequence of decoder states after each iteration of the
`read_metadata` loop (instrumentation of `read_metadata_aux` used to observe
the state trajectory; an error or exhausted stream ends the trace). -/
def read_metadata_trace : Nat → JPEGDecoder → List Nat → List JPEGState
  | 0, _, _ => []
  | fuel + 1, st, bytes =>
    if st.state = JPEGState.HaveFirstScan then []
    else
      match read_metadata_step st bytes with
      | .error _ => []
      | .ok (st1, rest) => st1.state :: read_metadata_trace fuel st1 rest

/-- Whether a decode result is a `FormatError`. -/
def exceptIsFormatError {α : Type} : Except DecErr α → Bool
  | .error (.format _) => true
  | _ => false

/-- Flatten (component id, table selectors) pairs into the scan-header byte
stream, followed by `tail`. -/
def flatPairs : List (Nat × Nat) → List Nat → List Nat
  | [], tail => tail
  | (a, b) :: ps, tail => a :: b :: flatPairs ps tail

/-- A byte stream whose markers are SOI, SOF0 (a minimal 8×8 grayscale frame
header), then a second SOI. -/
def soi_regression_bytes : List Nat :=
  [0xFF, 0xD8, 0xFF, 0xC0, 0, 11, 8, 0, 8, 0, 8, 1, 1, 0x11, 0, 0xFF, 0xD8]

/-- A decoder state mid-scan on the claim's example image: single-component,
width 32, height 8 (4 MCUs at `hmax = vmax = 1`), restart interval 2, two
MCUs decoded, expecting RST0, with a live DC predictor and bit accumulator. -/
def restart_example_state : JPEGDecoder :=
  { JPEGDecoder.new with
    width := 32
    height := 8
    hmax := 1
    vmax := 1
    interval := 2
    mcucount := 2
    components := [(1, ⟨1, 1, 1, 0, 0, 0, 5⟩)]
    h := ⟨3, 4, true, 0⟩ }

/-- A 4:2:0 MCU (`h = v = 2`): four zero luma blocks, a Cb block whose sample
at position (0,0) is 7 and at (4,0) is 9, and a zero Cr block. -/
def tiled_chroma_mcu : List Nat :=
  List.replicate 256 0 ++ (7 :: 0 :: 0 :: 0 :: 9 :: List.replicate 59 0) ++ List.replicate 64 0

/-- A colour conversion probe returning the Cb sample it was given on every
channel, to observe which chroma sample each output pixel uses. -/
def chroma_probe : Nat → Nat → Nat → Nat × Nat × Nat := fun _ cb _ => (cb, cb, cb)

/-! ## Theorems -/

/-- Claim C1: decoding AC symbols walks zig-zag positions 1..63 with
end-of-block and 16-zero-skip symbols as described, but when a symbol's run
moves the zig-zag index past position 63 the source indexes `UNZIGZAG[k]`
and `qtable[k]` out of bounds and panics — it does not return a format
error.  Four consecutive `(run 15, size 1)` symbols drive the index
1 → 17 → 33 → 49 → 65, and the decode ends in the panic outcome, not a
`FormatError`. -/
theorem decode_block_ac_overrun_panics :
    decode_block 0 (List.replicate 64 1) [0, 241, 241, 241, 241] [1, 1, 1, 1] =
      .error .panicked ∧
    exceptIsFormatError
      (decode_block 0 (List.replicate 64 1) [0, 241, 241, 241, 241] [1, 1, 1, 1]) = false :=
  ⟨by rfl, by rfl⟩

/-- Claim C2: the DC coefficient is stored without the quantization multiply.
With every quantization-table entry 2, a DC difference decoded as 1 (size-1
symbol, magnitude bit 1) and predictor 0, the block decoder hands coefficient
0 to the IDCT as 1, not as the dequantized `extend 1 1 * 2 = 2`. -/
theorem decode_block_dc_not_dequantized :
    decode_block 0 (List.replicate 64 2) [1, 0] [1] =
      .ok ((List.replicate 64 (0 : Int)).set 0 1, 1) ∧
    ((List.replicate 64 (0 : Int)).set 0 1).getD 0 0 = 1 ∧
    extend 1 1 * 2 = 2 ∧ (1 : Int) ≠ 2 :=
  ⟨by rfl, by rfl, by rfl, by decide⟩

/-- Claim C4: `extend` satisfies the Annex F.2.2.1 description: for `t ≤ 16`
and `0 ≤ v < 2^t`, if `v < 2^(t-1)` the value is `v + (-1) * 2^t + 1`,
otherwise `v` itself (for `t = 0` this yields 0); in particular
`extend 0 0 = 0`, `extend 0 4 = -15`, `extend 8 4 = 8`, `extend 15 4 = 15`. -/
theorem extend_spec (t : Nat) (ht : t ≤ 16) (v : Int) (hv0 : 0 ≤ v) (hvt : v < 2 ^ t) :
    extend v t = (if v < 2 ^ (t - 1) then v + (-1) * 2 ^ t + 1 else v) ∧
    extend 0 0 = 0 ∧ extend 0 4 = -15 ∧ extend 8 4 = 8 ∧ extend 15 4 = 15 := by
  refine ⟨?_, by decide, by decide, by decide, by decide⟩
  interval_cases t <;> (simp only [extend, wrap32]; norm_num)

/-- Witness for `extend_spec` at `t = 4`, `v = 8`. -/
theorem extend_spec_witness :
    ((4 : Nat) ≤ 16 ∧ (0 : Int) ≤ 8 ∧ (8 : Int) < 2 ^ 4) ∧
    (extend 8 4 = (if (8 : Int) < 2 ^ (4 - 1) then 8 + (-1) * 2 ^ 4 + 1 else 8) ∧
     extend 0 0 = 0 ∧ extend 0 4 = -15 ∧ extend 8 4 = 8 ∧ extend 15 4 = 15) :=
  ⟨by norm_num, extend_spec 4 (by norm_num) 8 (by norm_num) (by norm_num)⟩

set_option maxRecDepth 10000 in
/-- Claim C7: the upsampler does not replicate each chroma sample across its
`(hmax/h, vmax/v)` luma footprint; it reads the chroma sample at
`(x mod 8, y mod 8)`, tiling the 8×8 chroma block over every luma block.  In
a `h = v = 2` MCU with `Cb[0] = 7` and `Cb[4] = 9`, the pixel at luma
coordinates (8, 0) (byte offset 24 at width 16, 3 bytes per pixel) is
converted from `Cb[0] = 7`, while nearest-neighbor footprint replication
would use `Cb[4] = 9`. -/
theorem upsample_mcu_scalar_tiles_chroma :
    (upsample_mcu_scalar chroma_probe (List.replicate 768 0) 0 16 3
        tiled_chroma_mcu 2 2).getD 24 0 = 7 ∧
    tiled_chroma_mcu.getD 256 0 = 7 ∧ tiled_chroma_mcu.getD 260 0 = 9 ∧ (7 : Nat) ≠ 9 :=
  ⟨by rfl, by rfl, by rfl, by decide⟩

/-- Counterexample to claim C9 as stated: a frame header with height 0 is
rejected with `DimensionError`, which is not a `FormatError`. -/
theorem read_frame_header_zero_height_not_format_error :
    read_frame_header JPEGDecoder.new [0, 11, 8, 0, 0, 0, 16, 1, 1, 0x11, 0] =
      .error .dimension ∧
    exceptIsFormatError
      (read_frame_header JPEGDecoder.new [0, 11, 8, 0, 0, 0, 16, 1, 1, 0x11, 0]) = false :=
  ⟨by rfl, by rfl⟩

/-- Counterexample to claim C6 as stated: on a stream whose markers are SOI,
SOF0, SOI, the state trajectory of the marker-processing loop is
HaveSOI → HaveFirstFrame → HaveSOI, stepping back from HaveFirstFrame to the
earlier HaveSOI on the repeated SOI. -/
theorem read_metadata_soi_regression :
    read_metadata_trace (soi_regression_bytes.length + 1) JPEGDecoder.new
        soi_regression_bytes =
      [JPEGState.HaveSOI, JPEGState.HaveFirstFrame, JPEGState.HaveSOI] ∧
    stateRank JPEGState.HaveSOI < stateRank JPEGState.HaveFirstFrame :=
  ⟨by rfl, by decide⟩

theorem read_huffman_tables_state (st st2 : JPEGDecoder) (bytes r : List Nat)
    (h : read_huffman_tables st bytes = .ok (st2, r)) : st2.state = st.state := by
  unfold read_huffman_tables at h
  split at h
  · simp at h
  · split at h
    · simp at h
    · simp only [Except.ok.injEq, Prod.mk.injEq] at h
      rw [← h.1]

theorem read_quantization_tables_state (st st2 : JPEGDecoder) (bytes r : List Nat)
    (h : read_quantization_tables st bytes = .ok (st2, r)) : st2.state = st.state := by
  unfold read_quantization_tables at h
  split at h
  · simp at h
  · split at h
    · simp at h
    · simp only [Except.ok.injEq, Prod.mk.injEq] at h
      rw [← h.1]

theorem read_restart_interval_state (st st2 : JPEGDecoder) (bytes r : List Nat)
    (h : read_restart_interval st bytes = .ok (st2, r)) : st2.state = st.state := by
  unfold read_restart_interval at h
  split at h
  · simp at h
  · split at h
    · simp at h
    · simp only [Except.ok.injEq, Prod.mk.injEq] at h
      rw [← h.1]

theorem skip_segment_state (st st2 : JPEGDecoder) (bytes r : List Nat)
    (h : skip_segment st bytes = .ok (st2, r)) : st2.state = st.state := by
  unfold skip_segment at h
  split at h
  · simp at h
  · simp only [Except.ok.injEq, Prod.mk.injEq] at h
    rw [← h.1]

/-- Amended claim C6: across one marker-processing step taken from any state
the loop can be in (`Start`, `HaveSOI` or `HaveFirstFrame` — the loop stops
at `HaveFirstScan` and `End` is never assigned), the decoder state keeps or
increases its rank along Start → HaveSOI → HaveFirstFrame → HaveFirstScan —
except that an SOI marker unconditionally sets the state to `HaveSOI`, a
regression when a second SOI follows the first frame header. -/
theorem read_metadata_step_monotone (st : JPEGDecoder) (bytes : List Nat)
    (hst : st.state = .Start ∨ st.state = .HaveSOI ∨ st.state = .HaveFirstFrame)
    (st2 : JPEGDecoder) (rest : List Nat)
    (hstep : read_metadata_step st bytes = .ok (st2, rest)) :
    stateRank st.state ≤ stateRank st2.state ∨ st2.state = .HaveSOI := by
  unfold read_metadata_step at hstep
  rcases bytes with _ | ⟨b, r1⟩
  · simp at hstep
  · simp only at hstep
    by_cases hb : b % 256 ≠ 0xFF
    · rw [if_pos hb] at hstep
      simp only [Except.ok.injEq, Prod.mk.injEq] at hstep
      rw [← hstep.1]
      exact Or.inl le_rfl
    · rw [if_neg hb] at hstep
      rcases r1 with _ | ⟨mb, r2⟩
      · simp at hstep
      · simp only at hstep
        by_cases h1 : mb % 256 = SOI
        · rw [if_pos h1] at hstep
          simp only [Except.ok.injEq, Prod.mk.injEq] at hstep
          rw [← hstep.1]
          exact Or.inr rfl
        rw [if_neg h1] at hstep
        by_cases h2 : mb % 256 = DHT
        · rw [if_pos h2] at hstep
          exact Or.inl (le_of_eq (by rw [read_huffman_tables_state st st2 r2 rest hstep]))
        rw [if_neg h2] at hstep
        by_cases h3 : mb % 256 = DQT
        · rw [if_pos h3] at hstep
          exact Or.inl (le_of_eq (by rw [read_quantization_tables_state st st2 r2 rest hstep]))
        rw [if_neg h3] at hstep
        by_cases h4 : mb % 256 = SOF0
        · rw [if_pos h4] at hstep
          rcases h5 : read_frame_header st r2 with e | p
          · rw [h5] at hstep; simp [Except.map] at hstep
          · rw [h5] at hstep
            simp only [Except.map, Except.ok.injEq, Prod.mk.injEq] at hstep
            have hs2 : st2.state = JPEGState.HaveFirstFrame := by rw [← hstep.1]
            rcases hst with h | h | h <;> rw [h, hs2] <;> exact Or.inl (by decide)
        rw [if_neg h4] at hstep
        by_cases h6 : mb % 256 = SOS
        · rw [if_pos h6] at hstep
          rcases h7 : read_scan_header st r2 with e | p
          · rw [h7] at hstep; simp [Except.map] at hstep
          · rw [h7] at hstep
            simp only [Except.map, Except.ok.injEq, Prod.mk.injEq] at hstep
            have hs2 : st2.state = JPEGState.HaveFirstScan := by rw [← hstep.1]
            rcases hst with h | h | h <;> rw [h, hs2] <;> exact Or.inl (by decide)
        rw [if_neg h6] at hstep
        by_cases h8 : mb % 256 = DRI
        · rw [if_pos h8] at hstep
          exact Or.inl (le_of_eq (by rw [read_restart_interval_state st st2 r2 rest hstep]))
        rw [if_neg h8] at hstep
        by_cases h9 : (APP0 ≤ mb % 256 ∧ mb % 256 ≤ APPF) ∨ mb % 256 = COM
        · rw [if_pos h9] at hstep
          exact Or.inl (le_of_eq (by rw [skip_segment_state st st2 r2 rest hstep]))
        rw [if_neg h9] at hstep
        by_cases h10 : mb % 256 = TEM
        · rw [if_pos h10] at hstep
          simp only [Except.ok.injEq, Prod.mk.injEq] at hstep
          rw [← hstep.1]
          exact Or.inl le_rfl
        rw [if_neg h10] at hstep
        by_cases h11 : mb % 256 = SOF2
        · rw [if_pos h11] at hstep; simp at hstep
        rw [if_neg h11] at hstep
        by_cases h12 : mb % 256 = DNL
        · rw [if_pos h12] at hstep; simp at hstep
        rw [if_neg h12] at hstep
        simp at hstep

/-- Witness for `read_metadata_step_monotone`: the very first step of the
counterexample stream, an SOI marker from the initial state. -/
theorem read_metadata_step_monotone_witness :
    stateRank JPEGDecoder.new.state ≤
        stateRank ({JPEGDecoder.new with state := JPEGState.HaveSOI} : JPEGDecoder).state ∨
      ({JPEGDecoder.new with state := JPEGState.HaveSOI} : JPEGDecoder).state =
        JPEGState.HaveSOI :=
  read_metadata_step_monotone JPEGDecoder.new [0xFF, 0xD8] (Or.inl rfl)
    {JPEGDecoder.new with state := JPEGState.HaveSOI} [] (by rfl)

theorem rfc_loop_ok (n : Nat) : ∀ (comps : List (Nat × Component)) (bpm : Nat)
    (bytes : List Nat), 3 * n ≤ bytes.length →
    ∃ cb rest, rfc_loop n comps bpm bytes = .ok (cb, rest) := by
  induction n with
  | zero => intro comps bpm bytes _; exact ⟨(comps, bpm), bytes, rfl⟩
  | succ n ih =>
    intro comps bpm bytes h
    rcases bytes with _ | ⟨b1, (_ | ⟨b2, (_ | ⟨b3, r⟩)⟩)⟩
    · simp at h
    · simp at h; omega
    · simp at h; omega
    · obtain ⟨cb, rest, hok⟩ :=
        ih (insertComp comps (b1 % 256)
            { id := b1 % 256, h := b2 % 256 / 16, v := b2 % 256 % 16, tq := b3 % 256,
              dc_table := 0, ac_table := 0, dc_pred := 0 })
          ((bpm + (b2 % 256 / 16) * (b2 % 256 % 16)) % 256) r
          (by simp at h ⊢; omega)
      exact ⟨cb, rest, by simp only [rfc_loop]; exact hok⟩

theorem read_frame_components_ok (st : JPEGDecoder) (n : Nat) (bytes : List Nat)
    (h : 3 * n ≤ bytes.length) :
    ∃ st2 rest, read_frame_components st n bytes = .ok (st2, rest) ∧
      st2.height = st.height ∧ st2.width = st.width ∧
      st2.num_components = st.num_components ∧ st2.state = st.state := by
  obtain ⟨⟨comps0, bpm0⟩, rest, hok⟩ := rfc_loop_ok n st.components 0 bytes h
  unfold read_frame_components
  rw [hok]
  exact ⟨_, rest, rfl, rfl, rfl, rfl, rfl⟩

/-- Amended claim C9: parsing an SOF0 frame header rejects sample precision
other than 8 and component counts other than 1 or 3 with an
`UnsupportedError`, and rejects zero width or zero height with a
`DimensionError` (not a `FormatError`); every header passing these checks
(with enough bytes for its component records) records height, width and
component count and succeeds. -/
theorem read_frame_header_spec (st : JPEGDecoder)
    (l1 l2 p b1 b2 b3 b4 n : Nat) (rest : List Nat)
    (hp : p < 256) (h1 : b1 < 256) (h2 : b2 < 256) (h3 : b3 < 256) (h4 : b4 < 256)
    (hn : n < 256) :
    (p ≠ 8 →
      read_frame_header st (l1 :: l2 :: p :: b1 :: b2 :: b3 :: b4 :: n :: rest) =
        .error (.unsupported ("A sample precision of " ++ toString p ++ " is not supported"))) ∧
    (p = 8 → (b1 * 256 + b2 = 0 ∨ b3 * 256 + b4 = 0) →
      read_frame_header st (l1 :: l2 :: p :: b1 :: b2 :: b3 :: b4 :: n :: rest) =
        .error .dimension) ∧
    (p = 8 → ¬(b1 * 256 + b2 = 0 ∨ b3 * 256 + b4 = 0) → n ≠ 1 → n ≠ 3 →
      read_frame_header st (l1 :: l2 :: p :: b1 :: b2 :: b3 :: b4 :: n :: rest) =
        .error (.unsupported ("Frames with " ++ toString n ++ " components are not supported"))) ∧
    (p = 8 → ¬(b1 * 256 + b2 = 0 ∨ b3 * 256 + b4 = 0) → (n = 1 ∨ n = 3) →
      3 * n ≤ rest.length →
      ∃ st2 rest2,
        read_frame_header st (l1 :: l2 :: p :: b1 :: b2 :: b3 :: b4 :: n :: rest) =
          .ok (st2, rest2) ∧
        st2.height = b1 * 256 + b2 ∧ st2.width = b3 * 256 + b4 ∧
        st2.num_components = n ∧ st2.state = st.state) := by
  have e1 : p % 256 = p := Nat.mod_eq_of_lt hp
  have e2 : b1 % 256 = b1 := Nat.mod_eq_of_lt h1
  have e3 : b2 % 256 = b2 := Nat.mod_eq_of_lt h2
  have e4 : b3 % 256 = b3 := Nat.mod_eq_of_lt h3
  have e5 : b4 % 256 = b4 := Nat.mod_eq_of_lt h4
  have e6 : n % 256 = n := Nat.mod_eq_of_lt hn
  refine ⟨?_, ?_, ?_, ?_⟩
  · intro hne
    simp only [read_frame_header, readU16, readU8, e1, e2, e3, e4, e5, e6]
    rw [if_pos hne]
  · intro hpe hzero
    simp only [read_frame_header, readU16, readU8, e1, e2, e3, e4, e5, e6, hpe]
    rw [if_neg (by norm_num), if_pos hzero]
  · intro hpe hnz hn1 hn3
    simp only [read_frame_header, readU16, readU8, e1, e2, e3, e4, e5, e6, hpe]
    rw [if_neg (by norm_num), if_neg hnz, if_pos ⟨hn1, hn3⟩]
  · intro hpe hnz hn13 hlen
    obtain ⟨st2, rest2, hok, hh, hw, hc, hs⟩ :=
      read_frame_components_ok
        {st with height := b1 * 256 + b2, width := b3 * 256 + b4, num_components := n,
                 padded_width := 8 * ((b3 * 256 + b4 + 7) / 8)} n rest hlen
    refine ⟨st2, rest2, ?_, by rw [hh], by rw [hw], by rw [hc], by rw [hs]⟩
    simp only [read_frame_header, readU16, readU8, e1, e2, e3, e4, e5, e6, hpe]
    rw [if_neg (by norm_num), if_neg hnz, if_neg (by rcases hn13 with h | h <;> simp [h])]
    exact hok

/-- Witness for `read_frame_header_spec`: an 8-bit, 260×16, single-component
frame header parses successfully and records its geometry. -/
theorem read_frame_header_spec_witness :
    ∃ st2 rest2,
      read_frame_header JPEGDecoder.new [0, 11, 8, 1, 4, 0, 16, 1, 1, 0x11, 0] =
        .ok (st2, rest2) ∧
      st2.height = 1 * 256 + 4 ∧ st2.width = 0 * 256 + 16 ∧
      st2.num_components = 1 ∧ st2.state = JPEGDecoder.new.state :=
  (read_frame_header_spec JPEGDecoder.new 0 11 8 1 4 0 16 1 [1, 0x11, 0]
      (by norm_num) (by norm_num) (by norm_num) (by norm_num) (by norm_num)
      (by norm_num)).2.2.2
    rfl (by norm_num) (Or.inl rfl) (by norm_num)

theorem lookup_update_comp_isSome (comps : List (Nat × Component)) (id k : Nat)
    (c : Component) :
    (List.lookup k (update_comp comps id c)).isSome = (List.lookup k comps).isSome := by
  induction comps with
  | nil => rfl
  | cons q rest ih =>
    rcases q with ⟨k0, c0⟩
    simp only [update_comp, List.map_cons] at ih ⊢
    have hkey : (if (k0, c0).1 = id then ((k0, c0).1, c) else (k0, c0)) =
        (k0, if k0 = id then c else c0) := by
      by_cases h : k0 = id <;> simp [h]
    rw [hkey]
    by_cases hk : k = k0
    · simp [List.lookup, hk, ih]
    · simp [List.lookup, beq_false_of_ne hk, ih]

theorem lookup_update_comp_eq_none (comps : List (Nat × Component)) (id k : Nat)
    (c : Component) :
    (List.lookup k (update_comp comps id c) = none) ↔ (List.lookup k comps = none) := by
  rw [← Option.not_isSome_iff_eq_none, ← Option.not_isSome_iff_eq_none,
    lookup_update_comp_isSome]

theorem ssh_loop_ok_of_found (pairs : List (Nat × Nat)) :
    ∀ (comps : List (Nat × Component)) (sc : List Nat) (tail : List Nat),
    (∀ q ∈ pairs, (List.lookup (q.1 % 256) comps).isSome = true) →
    ∃ comps2 sc2,
      ssh_loop pairs.length comps sc (flatPairs pairs tail) = .ok ((comps2, sc2), tail) := by
  induction pairs with
  | nil => intro comps sc tail _; exact ⟨comps, sc, rfl⟩
  | cons q ps ih =>
    intro comps sc tail hall
    have hhead := hall q (by simp)
    rcases hl : List.lookup (q.1 % 256) comps with _ | c
    · rw [hl] at hhead; simp at hhead
    · rcases q with ⟨a, b⟩
      simp only [List.length_cons, flatPairs, ssh_loop]
      rw [hl]
      exact ih _ _ tail (fun r hr => by
        rw [lookup_update_comp_isSome]; exact hall r (by simp [hr]))

theorem ssh_loop_panics_of_missing (pairs : List (Nat × Nat)) :
    ∀ (comps : List (Nat × Component)) (sc : List Nat) (tail : List Nat),
    (∃ q ∈ pairs, List.lookup (q.1 % 256) comps = none) →
    ssh_loop pairs.length comps sc (flatPairs pairs tail) = .error .panicked := by
  induction pairs with
  | nil => intro comps sc tail h; simp at h
  | cons q ps ih =>
    intro comps sc tail hex
    rcases q with ⟨a, b⟩
    simp only [List.length_cons, flatPairs, ssh_loop]
    rcases hl : List.lookup (a % 256) comps with _ | c
    · rfl
    · apply ih
      rcases hex with ⟨r, hr, hnone⟩
      rcases List.mem_cons.mp hr with heq | hmem
      · rw [heq] at hnone; rw [hnone] at hl; cases hl
      · exact ⟨r, hmem, (lookup_update_comp_eq_none _ _ _ _).mpr hnone⟩

/-- Claim C10: a scan header naming a component id that the frame header did
not declare makes `read_scan_header` panic (the `unwrap` on the failed
component-map lookup) rather than return an error; when every named id was
declared, the lookups succeed and no panic occurs (the parse either succeeds
or fails with an I/O error on a truncated stream). -/
theorem read_scan_header_spec (st : JPEGDecoder) (l1 l2 : Nat) (pairs : List (Nat × Nat))
    (tail : List Nat) (hn : pairs.length < 256) :
    ((∀ q ∈ pairs, (List.lookup (q.1 % 256) st.components).isSome = true) →
      read_scan_header st (l1 :: l2 :: pairs.length :: flatPairs pairs tail) ≠
        .error .panicked) ∧
    ((∃ q ∈ pairs, List.lookup (q.1 % 256) st.components = none) →
      read_scan_header st (l1 :: l2 :: pairs.length :: flatPairs pairs tail) =
        .error .panicked) := by
  have e : pairs.length % 256 = pairs.length := Nat.mod_eq_of_lt hn
  constructor
  · intro hall
    obtain ⟨c2, s2, hok⟩ := ssh_loop_ok_of_found pairs st.components [] tail hall
    simp only [read_scan_header, readU16, readU8, e]
    rw [hok]
    rcases tail with _ | ⟨t1, (_ | ⟨t2, (_ | ⟨t3, ts⟩)⟩)⟩ <;> simp
  · intro hex
    simp only [read_scan_header, readU16, readU8, e]
    rw [ssh_loop_panics_of_missing pairs st.components [] tail hex]

/-- Witness for `read_scan_header_spec`: a scan naming component id 7 when
only id 1 was declared panics. -/
theorem read_scan_header_spec_witness :
    read_scan_header {JPEGDecoder.new with components := [(1, ⟨1, 1, 1, 0, 0, 0, 0⟩)]}
        (0 :: 8 :: [(7, 0)].length :: flatPairs [(7, 0)] [0, 0, 63]) = .error .panicked :=
  (read_scan_header_spec {JPEGDecoder.new with components := [(1, ⟨1, 1, 1, 0, 0, 0, 0⟩)]}
      0 8 [(7, 0)] [0, 0, 63] (by norm_num)).2
    ⟨(7, 0), by simp, by rfl⟩

/-- Claim C3: after an MCU, when the restart interval is nonzero, the MCU
counter is a multiple of it and more MCUs remain in the image (the source's
`mcucount < w * h` test, in the source's `u16`/`u8` arithmetic),
`read_restart` reads a restart marker: a marker equal to the expected cyclic
marker (initially RST0 in `JPEGDecoder.new`, advancing by one per restart and
wrapping RST7 back to RST0) resets every component's DC predictor to 0 and
clears the entropy bit-accumulator state; a different marker fails with a
`FormatError` naming it. -/
theorem read_restart_spec (st : JPEGDecoder) (bytes : List Nat)
    (hdw : (st.hmax * 8) % 256 ≠ 0) (hdh : (st.vmax * 8) % 256 ≠ 0)
    (hint : st.interval ≠ 0) (hmul : st.mcucount % st.interval = 0)
    (hrem : st.mcucount <
      ((st.width + 7) % 2 ^ 16) / ((st.hmax * 8) % 256) *
        (((st.height + 7) % 2 ^ 16) / ((st.vmax * 8) % 256)))
    (m : Nat) (h2 : HuffState) (rest : List Nat)
    (hfind : find_restart_marker st.h bytes = .ok (m, h2, rest)) :
    JPEGDecoder.new.expected_rst = RST0 ∧
    (m = st.expected_rst →
      read_restart st bytes = .ok
        ({st with
            h := ⟨0, 0, false, 0⟩,
            components := st.components.map (fun p => (p.1, { p.2 with dc_pred := 0 })),
            expected_rst := if st.expected_rst + 1 > RST7 then RST0
              else st.expected_rst + 1},
         rest)) ∧
    (m ≠ st.expected_rst →
      read_restart st bytes =
        .error (.format ("Unexpected restart maker " ++ toString m ++ " found"))) := by
  refine ⟨rfl, ?_, ?_⟩
  · intro heq
    unfold read_restart
    rw [if_neg (by simp [hdw, hdh]), if_pos ⟨hint, hmul, hrem⟩]
    simp only [hfind]
    rw [if_pos heq]
    rfl
  · intro hne
    unfold read_restart
    rw [if_neg (by simp [hdw, hdh]), if_pos ⟨hint, hmul, hrem⟩]
    simp only [hfind]
    rw [if_neg hne]

/-- Witness for `read_restart_spec`: the claim's example state (interval 2,
4-MCU single-component image, 2 MCUs decoded, RST0 expected) reading the
marker RST0. -/
theorem read_restart_spec_witness :
    JPEGDecoder.new.expected_rst = RST0 ∧
    (0xD0 = restart_example_state.expected_rst →
      read_restart restart_example_state [0xFF, 0xD0] = .ok
        ({restart_example_state with
            h := ⟨0, 0, false, 0⟩,
            components := restart_example_state.components.map
              (fun p => (p.1, { p.2 with dc_pred := 0 })),
            expected_rst := if restart_example_state.expected_rst + 1 > RST7 then RST0
              else restart_example_state.expected_rst + 1},
         [])) ∧
    (0xD0 ≠ restart_example_state.expected_rst →
      read_restart restart_example_state [0xFF, 0xD0] =
        .error (.format ("Unexpected restart maker " ++ toString 0xD0 ++ " found"))) :=
  read_restart_spec restart_example_state [0xFF, 0xD0] (by decide) (by decide) (by decide)
    (by decide) (by decide) 0xD0 restart_example_state.h [] (by rfl)

theorem wrap32_zero : wrap32 0 = 0 := by decide

theorem wrap16_zero : wrap16 0 = 0 := by decide

theorem wrap32_wrap32 (x : Int) : wrap32 (wrap32 x) = wrap32 x := by
  unfold wrap32; omega

theorem wrap16_wrap16 (x : Int) : wrap16 (wrap16 x) = wrap16 x := by
  unfold wrap16; omega

theorem wrap32_eq_self {x : Int} (h1 : -(2 ^ 31) ≤ x) (h2 : x < 2 ^ 31) : wrap32 x = x := by
  unfold wrap32; omega

theorem wrap16_bounds (x : Int) : -(2 ^ 15) ≤ wrap16 x ∧ wrap16 x < 2 ^ 15 := by
  unfold wrap16; omega

theorem satI16_eq_self {x : Int} (h1 : -32768 ≤ x) (h2 : x ≤ 32767) : satI16 x = x := by
  unfold satI16; split_ifs <;> omega

theorem satI16_bounds (x : Int) : -32768 ≤ satI16 x ∧ satI16 x ≤ 32767 := by
  unfold satI16; split_ifs <;> omega

theorem idct_pass1_dc (d : Int) (h1 : -32768 ≤ d) (h2 : d ≤ 32767) :
    idct_pass1 (dc_only_coeffs d) = List.replicate 8 [satI16 (4 * d), 0, 0, 0, 0, 0, 0, 0] := by
  simp only [idct_pass1, dc_only_coeffs, zero8, cf, interleave, madd, as_i32, add16, sub16,
    add32, sub32, shl32, sar32, splat4, packs32, combine, CONST_BITS, PASS1_BITS,
    FIX_0_298631336, FIX_0_390180644, FIX_0_541196100, FIX_0_765366865, FIX_0_899976223,
    FIX_1_175875602, FIX_1_501321110, FIX_1_847759065, FIX_1_961570560, FIX_2_053119869,
    FIX_2_562915447, FIX_3_072711026,
    List.zipWith, List.map, List.append_eq, List.cons_append, List.nil_append,
    List.replicate, wrap32_zero, wrap16_zero, wrap32_wrap32, wrap16_wrap16,
    mul_zero, zero_mul, add_zero, zero_add, sub_zero, zero_sub]
  norm_num [wrap32_zero, wrap32_wrap32]
  constructor
  · have e1 : wrap32 (d * 8192) = d * 8192 := wrap32_eq_self (by omega) (by omega)
    rw [e1]
    have e2 : wrap32 (d * 8192 + 1024) = d * 8192 + 1024 := wrap32_eq_self (by omega) (by omega)
    rw [e2]
    have e3 : (d * 8192 + 1024) / 2048 = 4 * d := by omega
    rw [e3]
  · decide

theorem idct_pass2_dc (v : Int) :
    idct_pass2 (List.replicate 8 [v, 0, 0, 0, 0, 0, 0, 0]) =
      List.replicate 64 (clamp (wrap16 (v + 16) / 32 + 128) 0 255) := by
  simp only [idct_pass2, zero8, cf, transpose, interleave, interleave_8, transpose_bytes,
    madd, as_i32, add16, sub16, add32, sub32, shl32, sar32, shl16, splat4, splat8,
    packs32, packs16, sp, ps, combine, CONST_BITS, PASS1_BITS,
    FIX_0_298631336, FIX_0_390180644, FIX_0_541196100, FIX_0_765366865, FIX_0_899976223,
    FIX_1_175875602, FIX_1_501321110, FIX_1_847759065, FIX_1_961570560, FIX_2_053119869,
    FIX_2_562915447, FIX_3_072711026,
    List.zipWith, List.map, List.append_eq, List.cons_append, List.nil_append,
    List.replicate, wrap32_zero, wrap16_zero, wrap32_wrap32, wrap16_wrap16,
    mul_zero, zero_mul, add_zero, zero_add, sub_zero, zero_sub]
  norm_num [wrap32_zero, wrap32_wrap32, wrap16_wrap16]
  obtain ⟨hb1, hb2⟩ := wrap16_bounds (v + 16)
  set w := wrap16 (v + 16) with hw
  have e1 : wrap32 (w * 8192) = w * 8192 := wrap32_eq_self (by omega) (by omega)
  rw [e1]
  have e2 : (w * 8192) / 262144 = w / 32 := by omega
  rw [e2]
  have e3 : satI16 (w / 32) = w / 32 := satI16_eq_self (by omega) (by omega)
  rw [e3]
  unfold satI8 clamp
  split_ifs <;> omega

/-- Claim C5: on a block whose 63 AC coefficients are zero and whose DC
coefficient is `d` (any `i16` value), `idct` produces a uniform 8×8 output:
all 64 samples equal `clamp (d_scaled d + 128) 0 255`, where `d_scaled` is
the fixed-point pipeline's DC scaling; this equals the general (slow-path)
computation `idct_general` on the same input (the fast path fires only on
the all-zero block); and on the non-saturating range `-8192 ≤ d ≤ 8187` the
scaling is exactly `(d + 4) / 8` (floor), the reference descale-by-8 with
rounding. -/
theorem idct_dc_only_uniform (d : Int) (h1 : -32768 ≤ d) (h2 : d ≤ 32767) :
    idct (dc_only_coeffs d) = List.replicate 64 (clamp (d_scaled d + 128) 0 255) ∧
    idct (dc_only_coeffs d) = idct_general (dc_only_coeffs d) ∧
    (-8192 ≤ d → d ≤ 8187 → d_scaled d = (d + 4) / 8) := by
  have hgen : idct_general (dc_only_coeffs d) =
      List.replicate 64 (clamp (d_scaled d + 128) 0 255) := by
    unfold idct_general
    rw [idct_pass1_dc d h1 h2, idct_pass2_dc (satI16 (4 * d))]
    rfl
  have hfast : idct (dc_only_coeffs d) = idct_general (dc_only_coeffs d) := by
    by_cases hd : d = 0
    · subst hd; decide
    · simp only [idct, dc_only_coeffs]
      by_cases hzz : ([d, 0, 0, 0, 0, 0, 0, 0] : List Int) = zero8
      · exfalso
        simp [zero8] at hzz
        exact hd hzz
      · rw [if_neg (by simp [hzz])]
        rfl
  refine ⟨hfast.trans hgen, hfast, ?_⟩
  intro ha hb
  unfold d_scaled
  have e1 : satI16 (4 * d) = 4 * d := satI16_eq_self (by omega) (by omega)
  rw [e1]
  have e2 : wrap16 (4 * d + 16) = 4 * d + 16 := by unfold wrap16; omega
  rw [e2]
  omega

/-- Witness for `idct_dc_only_uniform` at `d = 5`. -/
theorem idct_dc_only_uniform_witness :
    ((-32768 : Int) ≤ 5 ∧ (5 : Int) ≤ 32767) ∧
    (idct (dc_only_coeffs 5) = List.replicate 64 (clamp (d_scaled 5 + 128) 0 255) ∧
     idct (dc_only_coeffs 5) = idct_general (dc_only_coeffs 5) ∧
     ((-8192 : Int) ≤ 5 → (5 : Int) ≤ 8187 → d_scaled 5 = (5 + 4) / 8)) :=
  ⟨by norm_num, idct_dc_only_uniform 5 (by norm_num) (by norm_num)⟩
